import Mathlib

/-!
# Verification of the local task store (`src/modules/tasks`)

Shallow embedding of the repository's local task provider
(`src/modules/tasks/providers/local.js`) and of the task tool handlers
(`src/modules/tasks/index.js`), with theorems settling the specification
claims about them.

Modelling conventions:
* Time is milliseconds since the Unix epoch (`Nat`), passed explicitly as
  `now` wherever the source calls `new Date()`.  The process's UTC offset is
  modelled as zero, so `toISOString` day boundaries and local day boundaries
  coincide and `setDate(getDate() + k)` is `now + k * msPerDay`.
* `new Date().toISOString().split('T')[0]` is `toDateString`, implemented
  with the standard civil-from-days conversion (proleptic Gregorian).
* `new Date(s)` applied to a stored due-date string is `parseDateMs`,
  a parser for the date-only ISO form `YYYY-MM-DD` (the format the module
  documents and produces); any other string yields `none`, mirroring an
  Invalid Date whose comparisons are all false.
* JS `undefined` object fields are `Option.none`; JS truthiness on strings
  (`if (x)`) is `none`/empty-string falsy.
* `uuidv4()` is an explicit `newId` argument.
* File-system effects are explicit: each mutating operation reports in a
  `wrote` flag whether it invoked `saveToFile`, and provider start-up takes
  the outcome of the directory creation, the file read and the initial save
  as parameters.
-/

namespace McpPa

/-- Milliseconds in one day, as used by the source's date arithmetic. -/
def msPerDay : Nat := 86400000

/-- Civil date (year, month, day) from a count of days since 1970-01-01,
    proleptic Gregorian calendar (Howard Hinnant's `civil_from_days`). -/
def civilFromDays (z : Nat) : Nat × Nat × Nat :=
  let z := z + 719468
  let era := z / 146097
  let doe := z % 146097
  let yoe := (doe - doe / 1460 + doe / 36524 - doe / 146096) / 365
  let y := yoe + era * 400
  let doy := doe - (365 * yoe + yoe / 4 - yoe / 100)
  let mp := (5 * doy + 2) / 153
  let d := doy - (153 * mp + 2) / 5 + 1
  let m := if mp < 10 then mp + 3 else mp - 9
  (if m ≤ 2 then y + 1 else y, m, d)

/-- Zero-pad a number to two digits. -/
def pad2 (n : Nat) : String :=
  if n < 10 then "0" ++ toString n else toString n

/-- Zero-pad a number to three digits. -/
def pad3 (n : Nat) : String :=
  if n < 10 then "00" ++ toString n
  else if n < 100 then "0" ++ toString n
  else toString n

/-- Zero-pad a number to four digits. -/
def pad4 (n : Nat) : String :=
  if n < 10 then "000" ++ toString n
  else if n < 100 then "00" ++ toString n
  else if n < 1000 then "0" ++ toString n
  else toString n

/-- Format a civil date as `YYYY-MM-DD`. -/
def formatCivil (c : Nat × Nat × Nat) : String :=
  pad4 c.1 ++ "-" ++ pad2 c.2.1 ++ "-" ++ pad2 c.2.2

/-- The `YYYY-MM-DD` string of a day number (days since the epoch). -/
def dateStringOfDay (d : Nat) : String :=
  formatCivil (civilFromDays d)

/-- The calendar day number of an instant: `ms / msPerDay`. -/
def dayOf (ms : Nat) : Nat := ms / msPerDay

/-- `new Date(ms).toISOString().split('T')[0]`: the date part of the ISO
    string of an instant. -/
def toDateString (ms : Nat) : String :=
  dateStringOfDay (dayOf ms)

/-- `new Date(ms).toISOString()`: full ISO-8601 UTC timestamp. -/
def toISOString (ms : Nat) : String :=
  toDateString ms ++ "T" ++ pad2 (ms / 3600000 % 24) ++ ":" ++
    pad2 (ms / 60000 % 60) ++ ":" ++ pad2 (ms / 1000 % 60) ++ "." ++
    pad3 (ms % 1000) ++ "Z"

/-- Gregorian leap-year rule. -/
def isLeapYear (y : Nat) : Bool :=
  (y % 4 == 0 && y % 100 != 0) || y % 400 == 0

/-- Number of days in a month. -/
def daysInMonth (y m : Nat) : Nat :=
  if m = 2 then (if isLeapYear y then 29 else 28)
  else if m = 4 ∨ m = 6 ∨ m = 9 ∨ m = 11 then 30
  else 31

/-- Days since 1970-01-01 of a civil date with `y ≥ 1`
    (Howard Hinnant's `days_from_civil`); may be negative for years
    before 1970. -/
def daysFromCivil (y m d : Nat) : Int :=
  let yAdj := if m ≤ 2 then y - 1 else y
  let era := yAdj / 400
  let yoe := yAdj % 400
  let mp := if 2 < m then m - 3 else m + 9
  let doy := (153 * mp + 2) / 5 + d - 1
  let doe := yoe * 365 + yoe / 4 - yoe / 100 + doy
  (era * 146097 + doe : Int) - 719468

/-- Numeric value of a decimal digit character. -/
def digitVal (c : Char) : Nat := c.toNat - 48

/-- `new Date(s).getTime()` for a stored due-date string: parses the
    date-only ISO form `YYYY-MM-DD` to epoch milliseconds (UTC midnight);
    any other string is an Invalid Date, modelled as `none`. -/
def parseDateMs (s : String) : Option Int :=
  match s.data with
  | [y1, y2, y3, y4, h1, m1, m2, h2, d1, d2] =>
    if (h1 == '-') && (h2 == '-') &&
        ([y1, y2, y3, y4, m1, m2, d1, d2].all Char.isDigit) then
      let y := ((digitVal y1 * 10 + digitVal y2) * 10 + digitVal y3) * 10 + digitVal y4
      let m := digitVal m1 * 10 + digitVal m2
      let d := digitVal d1 * 10 + digitVal d2
      if 1 ≤ y ∧ 1 ≤ m ∧ m ≤ 12 ∧ 1 ≤ d ∧ d ≤ daysInMonth y m then
        some (daysFromCivil y m d * (msPerDay : Int))
      else none
    else none
  | _ => none

/-- A stored task record (`newTask` shape in `local.js`). -/
structure Task where
  id : String
  title : String
  description : String
  status : String
  priority : String
  dueDate : Option String
  tags : List String
  createdAt : String
  updatedAt : String
  deriving Repr, DecidableEq

/-- The filter object accepted by `getTasks` in `local.js`. -/
structure TaskFilters where
  status : Option String := none
  priority : Option String := none
  dueDate : Option String := none
  deriving Repr, DecidableEq

/-- JS truthiness of an optional string field: absent (`undefined`) and the
    empty string are falsy. -/
def truthy : Option String → Bool
  | none => false
  | some s => !s.isEmpty

/-- Result shape `{success, tasks}` returned by `getTasks`. -/
structure TasksResult where
  success : Bool
  tasks : List Task
  deriving Repr, DecidableEq

/-- The `this_week` due-date test in `getTasks` (`local.js` lines 112-117):
    the record's parsed due date must lie between `now` and `now` plus seven
    days, inclusive; records with a falsy or unparsable due date are
    excluded (NaN comparisons are false). -/
def inThisWeek (now : Nat) (t : Task) : Bool :=
  match t.dueDate with
  | none => false
  | some s =>
    if s.isEmpty then false
    else
      match parseDateMs s with
      | none => false
      | some ms => decide ((now : Int) ≤ ms) && decide (ms ≤ (now : Int) + 7 * (msPerDay : Int))

/-- `getTasks(filters)` of `local.js` (lines 76-141): copies the task list,
    applies the status filter, then the priority filter, then the due-date
    filter; `today` and `tomorrow` resolve to a target date compared for
    string equality, `this_week` filters by `inThisWeek` and returns early,
    and any other truthy due-date value is compared for string equality. -/
def getTasks (now : Nat) (filters : TaskFilters) (tasks : List Task) : TasksResult :=
  let ft0 := tasks
  let ft1 :=
    if truthy filters.status then
      ft0.filter (fun t => t.status == filters.status.getD "")
    else ft0
  let ft2 :=
    if truthy filters.priority then
      ft1.filter (fun t => t.priority == filters.priority.getD "")
    else ft1
  if truthy filters.dueDate then
    let d := filters.dueDate.getD ""
    if d == "today" then
      { success := true, tasks := ft2.filter (fun t => t.dueDate == some (toDateString now)) }
    else if d == "tomorrow" then
      { success := true, tasks := ft2.filter (fun t => t.dueDate == some (toDateString (now + msPerDay))) }
    else if d == "this_week" then
      { success := true, tasks := ft2.filter (fun t => inThisWeek now t) }
    else
      { success := true, tasks := ft2.filter (fun t => t.dueDate == some d) }
  else
    { success := true, tasks := ft2 }

/-- The due-date normalisation shared by `createTask` and `updateTask`
    (`local.js` lines 180-188 and 241-249): a truthy value equal to `today`
    or `tomorrow` is resolved to the corresponding absolute date string;
    everything else (absent, empty, or any other string) passes through
    unchanged. -/
def resolveDueDate (now : Nat) : Option String → Option String
  | none => none
  | some s =>
    if s.isEmpty then some s
    else if s == "today" then some (toDateString now)
    else if s == "tomorrow" then some (toDateString (now + msPerDay))
    else some s

/-- JS `Array.prototype.findIndex`. -/
def findIndex (p : Task → Bool) : List Task → Option Nat
  | [] => none
  | t :: ts => if p t then some 0 else (findIndex p ts).map (· + 1)

/-- Input accepted by `createTask` (`taskData`); absent fields are `none`.
    `title` is kept as a plain string: the source performs no validation on
    it and stores whatever value (including the empty string) it receives. -/
structure CreateData where
  title : String := ""
  description : Option String := none
  priority : Option String := none
  dueDate : Option String := none
  tags : Option (List String) := none
  deriving Repr, DecidableEq

/-- Result of `createTask`: the returned record, the new collection, and
    whether `saveToFile` was invoked. -/
structure CreateResult where
  task : Task
  tasks : List Task
  wrote : Bool
  deriving Repr, DecidableEq

/-- `createTask(taskData)` of `local.js` (lines 171-217): resolves a relative
    due date, builds the new record (status `open` unconditionally,
    description defaulting to the empty string, priority defaulting to
    `medium` by truthiness, tags defaulting to the empty list), appends it,
    and saves.  `uuidv4()` and `new Date()` are the explicit `newId` and
    `now` arguments.  No field of the input is validated. -/
def createTask (now : Nat) (newId : String) (tasks : List Task) (d : CreateData) : CreateResult :=
  let dueDate := resolveDueDate now d.dueDate
  let newTask : Task :=
    { id := newId
      title := d.title
      description := d.description.getD ""
      status := "open"
      priority :=
        match d.priority with
        | some p => if p.isEmpty then "medium" else p
        | none => "medium"
      dueDate := dueDate
      tags := d.tags.getD []
      createdAt := toISOString now
      updatedAt := toISOString now }
  { task := newTask, tasks := tasks ++ [newTask], wrote := true }

/-- Input accepted by `updateTask` (`taskData`); absent fields are `none`. -/
structure UpdateData where
  id : String
  title : Option String := none
  description : Option String := none
  status : Option String := none
  priority : Option String := none
  dueDate : Option String := none
  tags : Option (List String) := none
  deriving Repr, DecidableEq

deriving instance DecidableEq for Except

/-- Result of `updateTask` / `deleteTask`: the thrown-or-returned value, the
    resulting collection, and whether `saveToFile` was invoked. -/
structure MutationResult (α : Type) where
  result : Except String α
  tasks : List Task
  wrote : Bool
  deriving Repr, DecidableEq

/-- `updateTask(taskData)` of `local.js` (lines 222-277): locates the task by
    `findIndex`; if absent, throws not-found without touching the collection
    or the file; otherwise resolves a relative due date, overwrites exactly
    the provided (non-`undefined`) fields, refreshes `updatedAt`, stores the
    record back at the same index, and saves.  (`id` and `createdAt` come
    from the spread of the existing task.) -/
def updateTask (now : Nat) (tasks : List Task) (d : UpdateData) : MutationResult Task :=
  match findIndex (fun t => t.id == d.id) tasks with
  | none =>
    { result := .error ("Failed to update task: Task with ID " ++ d.id ++ " not found")
      tasks := tasks
      wrote := false }
  | some i =>
    match tasks.get? i with
    | none =>
      -- unreachable: `findIndex` only returns indices inside the list
      { result := .error ("Failed to update task: Task with ID " ++ d.id ++ " not found")
        tasks := tasks
        wrote := false }
    | some existingTask =>
      let dueDate := resolveDueDate now d.dueDate
      let updatedTask : Task :=
        { id := existingTask.id
          title := d.title.getD existingTask.title
          description := d.description.getD existingTask.description
          status := d.status.getD existingTask.status
          priority := d.priority.getD existingTask.priority
          dueDate :=
            match dueDate with
            | some v => some v
            | none => existingTask.dueDate
          tags := d.tags.getD existingTask.tags
          createdAt := existingTask.createdAt
          updatedAt := toISOString now }
      { result := .ok updatedTask, tasks := tasks.set i updatedTask, wrote := true }

/-- `deleteTask(taskId)` of `local.js` (lines 282-309): locates the task by
    `findIndex`; if absent, throws not-found without touching the collection
    or the file; otherwise splices it out and saves. -/
def deleteTask (tasks : List Task) (taskId : String) : MutationResult String :=
  match findIndex (fun t => t.id == taskId) tasks with
  | none =>
    { result := .error ("Failed to delete task: Task with ID " ++ taskId ++ " not found")
      tasks := tasks
      wrote := false }
  | some i =>
    { result := .ok ("Task with ID " ++ taskId ++ " deleted successfully")
      tasks := tasks.eraseIdx i
      wrote := true }

/-- `getTaskById(taskId)` of `local.js` (lines 146-166): `Array.find` by id,
    throwing not-found when absent.  It never mutates or saves. -/
def getTaskById (tasks : List Task) (taskId : String) : Except String Task :=
  match tasks.find? (fun t => t.id == taskId) with
  | none => .error ("Failed to get task: Task with ID " ++ taskId ++ " not found")
  | some t => .ok t

/-- Provider state: the in-memory collection and the `initialized` flag
    (renamed `initDone` here). -/
structure LocalTaskProvider where
  tasks : List Task := []
  initDone : Bool := false
  deriving Repr, DecidableEq

/-- Outcome of the `readFile` + `JSON.parse` step inside `initialize`. -/
inductive LoadOutcome where
  /-- The file was read and parsed successfully. -/
  | loaded (tasks : List Task)
  /-- `readFile` failed with `ENOENT` (file absent). -/
  | enoent
  /-- `readFile` failed for any other reason (for example `EACCES`). -/
  | readError (msg : String)
  /-- The file was read but `JSON.parse` threw (corrupt contents). -/
  | parseError (msg : String)
  deriving Repr, DecidableEq

/-- Outcome of `initialize`: the thrown-or-returned provider state, and
    whether `saveToFile` ran to completion. -/
structure InitOutcome where
  result : Except String LocalTaskProvider
  savedFile : Bool
  deriving Repr, DecidableEq

/-- `initialize()` of `local.js` (lines 27-58), named `initProvider` here.
    Already-initialized providers return at once.  Otherwise the directory is
    created (`mkdirOk` is the outcome); then the file is read and parsed: on
    success the parsed list becomes the collection, while on ANY failure of
    the read or the parse — `ENOENT` or not — the inner catch sets the
    collection to the empty list and writes the file out (`saveOk` is the
    outcome of that write).  Only a `mkdir` failure or a failure of that
    initial write escapes to the outer catch and is rethrown as an
    initialization failure. -/
def initProvider (st : LocalTaskProvider) (mkdirOk : Bool) (load : LoadOutcome)
    (saveOk : Bool) : InitOutcome :=
  if st.initDone then
    { result := .ok st, savedFile := false }
  else if !mkdirOk then
    { result := .error "Failed to initialize local task provider: mkdir failed"
      savedFile := false }
  else
    match load with
    | .loaded ts =>
      { result := .ok { tasks := ts, initDone := true }, savedFile := false }
    | _ =>
      if saveOk then
        { result := .ok { tasks := [], initDone := true }, savedFile := true }
      else
        { result := .error "Failed to initialize local task provider: Failed to save tasks"
          savedFile := false }

/-! ## Tool layer (`src/modules/tasks/index.js`) -/

/-- `config.modules.tasks.defaultProvider` (`src/config/index.js`). -/
def defaultProvider : String := "local"

/-- Per-call provider resolution `params.provider || defaultProvider`
    (JS `||` takes the default on absent or empty string). -/
def resolveProvider : Option String → String
  | none => defaultProvider
  | some p => if p.isEmpty then defaultProvider else p

/-- The property names of the `createTask` tool's parameter schema
    (`src/modules/tasks/index.js`); the tool exposes no `status`
    parameter. -/
def createTaskToolProperties : List String :=
  ["title", "description", "dueDate", "priority", "tags", "provider"]

/-- The required-parameter set of the `createTask` tool. -/
def createTaskToolRequired : List String := ["title"]

/-- Parameters of the `completeTask` tool. -/
structure CompleteTaskParams where
  taskId : String
  provider : Option String := none
  deriving Repr, DecidableEq

/-- The `completeTask` tool handler (`src/modules/tasks/index.js`): resolves
    the provider and, for `local`, calls the store's `updateTask` with
    exactly `{id: params.taskId, status: "completed"}`; any other provider
    name throws unsupported without touching the store. -/
def completeTaskHandler (now : Nat) (tasks : List Task) (params : CompleteTaskParams) :
    MutationResult Task :=
  if resolveProvider params.provider == "local" then
    updateTask now tasks { id := params.taskId, status := some "completed" }
  else
    { result := .error ("Failed to complete task: Task provider " ++
        resolveProvider params.provider ++ " is not supported or enabled")
      tasks := tasks
      wrote := false }

/-! ## Sample records for concrete witnesses -/

/-- A sample stored task used by concrete witnesses. -/
def sampleTask : Task :=
  { id := "a", title := "t", description := "d", status := "open",
    priority := "high", dueDate := some "1970-01-02", tags := ["x"],
    createdAt := "c", updatedAt := "u" }

/-- A sample task due exactly a week after the epoch. -/
def weekTask : Task :=
  { id := "a", title := "t", description := "", status := "open",
    priority := "medium", dueDate := some "1970-01-08", tags := [],
    createdAt := "c", updatedAt := "u" }

/-- A sample task with no due date. -/
def noDueTask : Task :=
  { id := "b", title := "t2", description := "", status := "open",
    priority := "medium", dueDate := none, tags := [],
    createdAt := "c", updatedAt := "u" }

/-- A sample open task with no due date. -/
def openTask : Task :=
  { id := "a", title := "t", description := "", status := "open",
    priority := "medium", dueDate := none, tags := [],
    createdAt := "c", updatedAt := "u" }

/-! ## Specification-side filter predicate

The following predicate is written from the spec's words ("each present key
narrows the result", "exact match", "filters combine with logical AND"), to
be compared with the pipelined implementation `getTasks`. -/

/-- Spec: a present (truthy) `status` key requires an exact match. -/
def statusMatches (fs : TaskFilters) (t : Task) : Bool :=
  !truthy fs.status || (t.status == fs.status.getD "")

/-- Spec: a present (truthy) `priority` key requires an exact match. -/
def priorityMatches (fs : TaskFilters) (t : Task) : Bool :=
  !truthy fs.priority || (t.priority == fs.priority.getD "")

/-- Spec: a present (truthy) `dueDate` key requires the record's due date to
    match the resolved target date exactly, or to fall in the `this_week`
    range. -/
def dueDateMatches (now : Nat) (fs : TaskFilters) (t : Task) : Bool :=
  if truthy fs.dueDate then
    let d := fs.dueDate.getD ""
    if d == "today" then t.dueDate == some (toDateString now)
    else if d == "tomorrow" then t.dueDate == some (toDateString (now + msPerDay))
    else if d == "this_week" then inThisWeek now t
    else t.dueDate == some d
  else true

/-- Spec: a task satisfies the filter object when it satisfies every present
    key simultaneously (logical AND). -/
def matchesFilters (now : Nat) (fs : TaskFilters) (t : Task) : Bool :=
  statusMatches fs t && priorityMatches fs t && dueDateMatches now fs t

/-! ## Helper lemmas -/

/-- `getTasks` returns, with success, exactly the insertion-ordered
    sublist of tasks satisfying every present filter key (logical AND). -/
theorem getTasks_eq_filter (now : Nat) (fs : TaskFilters) (ts : List Task) :
    getTasks now fs ts = { success := true, tasks := ts.filter (fun t => matchesFilters now fs t) } := by
  rcases fs with ⟨st, pr, dd⟩
  by_cases hs : truthy st <;> by_cases hp : truthy pr <;> by_cases hd : truthy dd <;>
    by_cases h1 : (dd.getD "" == "today") <;>
    by_cases h2 : (dd.getD "" == "tomorrow") <;>
    by_cases h3 : (dd.getD "" == "this_week") <;>
    simp [getTasks, matchesFilters, statusMatches, priorityMatches, dueDateMatches,
      hs, hp, hd, h1, h2, h3, Bool.and_comm, Bool.and_assoc, Bool.and_left_comm]

theorem findIndex_eq_none {p : Task → Bool} {l : List Task}
    (h : ∀ t ∈ l, p t = false) : findIndex p l = none := by
  induction l with
  | nil => rfl
  | cons t ts ih =>
    simp [findIndex, h t (List.mem_cons_self t ts),
      ih fun u hu => h u (List.mem_cons_of_mem t hu)]

/-! ## Claim theorems -/

/-- C1: for every task collection and filter object over
    {status, priority, dueDate} (including `this_week`), `getTasks` succeeds
    (never fails, even on an empty result) and returns exactly the tasks
    satisfying every present filter key simultaneously — the filters combine
    with logical AND — as a sublist of the collection in insertion order.
    In particular the `this_week` early return is taken only after the
    status and priority filters have already been applied. -/
theorem getTasks_and_filter_semantics (now : Nat) (fs : TaskFilters) (ts : List Task) :
    (getTasks now fs ts).success = true ∧
    (getTasks now fs ts).tasks = ts.filter (fun t => matchesFilters now fs t) ∧
    (getTasks now fs ts).tasks.Sublist ts := by
  have h := getTasks_eq_filter now fs ts
  refine ⟨by rw [h], by rw [h], ?_⟩
  rw [h]
  exact List.filter_sublist ts

/-- C4: creating a task with due date `tomorrow` stores the absolute date of
    the calendar day after the day of the call, and `today` stores the date
    of the day of the call, both computed from the moment `now` of the call
    (day boundary as in the source's `toISOString`). -/
theorem createTask_relative_dates (now : Nat) (newId ti : String) (de pr : Option String)
    (tg : Option (List String)) (ts : List Task) :
    (createTask now newId ts
        { title := ti, description := de, priority := pr,
          dueDate := some "tomorrow", tags := tg }).task.dueDate
      = some (dateStringOfDay (dayOf now + 1)) ∧
    (createTask now newId ts
        { title := ti, description := de, priority := pr,
          dueDate := some "today", tags := tg }).task.dueDate
      = some (dateStringOfDay (dayOf now)) := by
  have hdiv : (now + msPerDay) / msPerDay = now / msPerDay + 1 :=
    Nat.add_div_right now (by decide)
  have he1 : ("tomorrow" : String).isEmpty = false := by decide
  have he2 : ("today" : String).isEmpty = false := by decide
  constructor
  · simp [createTask, resolveDueDate, toDateString, dayOf, hdiv, he1]
  · simp [createTask, resolveDueDate, toDateString, dayOf, he2]

/-- C3 counterexample: creating a task with the relative token `yesterday`
    stores the token string itself, not a resolved absolute date — the
    source resolves only `today` and `tomorrow`. -/
theorem createTask_yesterday_unresolved :
    (createTask 0 "id-1" [] { title := "t", dueDate := some "yesterday" }).task.dueDate
      = some "yesterday" := by
  decide

/-- C3 (amended): once stored, a `dueDate` of `today` or `tomorrow` has been
    resolved to an absolute date; every other due-date string — including
    the relative tokens `yesterday` and `this_week` — is stored exactly as
    given, by both `createTask` and `updateTask`. -/
theorem dueDate_resolution_amended (now : Nat) (newId : String) (ts : List Task)
    (d : CreateData) :
    (createTask now newId ts d).task.dueDate = resolveDueDate now d.dueDate ∧
    resolveDueDate now (some "today") = some (toDateString now) ∧
    resolveDueDate now (some "tomorrow") = some (toDateString (now + msPerDay)) ∧
    (∀ s : String, s ≠ "today" → s ≠ "tomorrow" → resolveDueDate now (some s) = some s) ∧
    (∀ (ud : UpdateData) (i : Nat) (t : Task),
      findIndex (fun x => x.id == ud.id) ts = some i → ts.get? i = some t →
      ∃ u : Task, (updateTask now ts ud).result = .ok u ∧
        u.dueDate = (match resolveDueDate now ud.dueDate with
          | some v => some v
          | none => t.dueDate)) := by
  have he1 : ("tomorrow" : String).isEmpty = false := by decide
  have he2 : ("today" : String).isEmpty = false := by decide
  refine ⟨rfl, by simp [resolveDueDate, he2], by simp [resolveDueDate, he1], ?_, ?_⟩
  · intro s h1 h2
    simp only [resolveDueDate]
    by_cases he : s.isEmpty <;> simp [he, h1, h2]
  · intro ud i t hfi hgt
    simp only [updateTask, hfi, hgt]
    exact ⟨_, rfl, rfl⟩

theorem dueDate_resolution_amended_witness :
    resolveDueDate 3 (some "yesterday") = some "yesterday" :=
  (dueDate_resolution_amended 3 "id-w" [] { title := "t" }).2.2.2.1 "yesterday"
    (by decide) (by decide)

/-- C5 counterexample: `createTask` accepts the empty title — it stores the
    task (the collection grows) instead of failing. -/
theorem createTask_empty_title_accepted :
    (createTask 0 "id-1" [] { title := "" }).task.title = "" ∧
    (createTask 0 "id-1" [] { title := "" }).tasks ≠ [] := by
  constructor
  · decide
  · intro h
    simp [createTask] at h

/-- C5 (amended): the store's `create` performs no validation of `title`
    whatsoever: for every input — including an empty title — it stores the
    title as given, assigns the generated id and both timestamps, appends
    the record to the collection, persists (a file write is triggered), and
    returns the new record.  A missing `title` is rejected only by the
    dispatch layer's required-parameter check (the tool declares `title`
    required), which lives outside this module. -/
theorem createTask_no_validation_amended (now : Nat) (newId : String)
    (ts : List Task) (d : CreateData) :
    (createTask now newId ts d).task.title = d.title ∧
    (createTask now newId ts d).task.id = newId ∧
    (createTask now newId ts d).task.createdAt = toISOString now ∧
    (createTask now newId ts d).task.updatedAt = toISOString now ∧
    (createTask now newId ts d).tasks = ts ++ [(createTask now newId ts d).task] ∧
    (createTask now newId ts d).wrote = true ∧
    "title" ∈ createTaskToolRequired :=
  ⟨rfl, rfl, rfl, rfl, rfl, rfl, by decide⟩

/-- C9: every freshly created task has status `open`: the `createTask` tool
    schema exposes no `status` parameter, and the store sets status to
    `open` unconditionally, in both the returned record and the record
    appended to the stored collection. -/
theorem createTask_status_always_open (now : Nat) (newId : String)
    (ts : List Task) (d : CreateData) :
    "status" ∉ createTaskToolProperties ∧
    (createTask now newId ts d).task.status = "open" ∧
    (createTask now newId ts d).tasks = ts ++ [(createTask now newId ts d).task] :=
  ⟨by decide, rfl, rfl⟩

/-- C6: `get`, `update` and `delete` on an id not present in the collection
    each fail with the not-found error, leave the stored collection
    unchanged, and trigger no file write. -/
theorem notFound_ops_no_mutation (now : Nat) (ts : List Task) (tid : String)
    (ud : UpdateData) (hud : ud.id = tid)
    (hid : ∀ t ∈ ts, t.id ≠ tid) :
    getTaskById ts tid =
      .error ("Failed to get task: Task with ID " ++ tid ++ " not found") ∧
    updateTask now ts ud =
      { result := .error ("Failed to update task: Task with ID " ++ tid ++ " not found")
        tasks := ts, wrote := false } ∧
    deleteTask ts tid =
      { result := .error ("Failed to delete task: Task with ID " ++ tid ++ " not found")
        tasks := ts, wrote := false } := by
  have hfind : ts.find? (fun t => t.id == tid) = none :=
    List.find?_eq_none.mpr fun t ht => by simp [hid t ht]
  have hfi : findIndex (fun t => t.id == tid) ts = none :=
    findIndex_eq_none fun t ht => by simp [hid t ht]
  have hfi2 : findIndex (fun t => t.id == ud.id) ts = none := by rw [hud]; exact hfi
  refine ⟨?_, ?_, ?_⟩
  · simp [getTaskById, hfind]
  · simp [updateTask, hud, hfi, hfi2]
  · simp [deleteTask, hfi]

theorem notFound_ops_no_mutation_witness :
    getTaskById [] "x" =
      .error ("Failed to get task: Task with ID " ++ "x" ++ " not found") ∧
    updateTask 0 [] { id := "x" } =
      { result := .error ("Failed to update task: Task with ID " ++ "x" ++ " not found")
        tasks := [], wrote := false } ∧
    deleteTask [] "x" =
      { result := .error ("Failed to delete task: Task with ID " ++ "x" ++ " not found")
        tasks := [], wrote := false } :=
  notFound_ops_no_mutation 0 [] "x" { id := "x" } rfl (by simp)

/-- C7: updating a stored task with an empty partial payload (no field
    beyond the id) refreshes `updatedAt` and leaves every other field —
    id, title, description, status, priority, dueDate, tags, createdAt —
    identical, both in the returned record and in the stored collection. -/
theorem updateTask_empty_payload_frame (now : Nat) (ts : List Task) (tid : String)
    (i : Nat) (t : Task)
    (hfi : findIndex (fun x => x.id == tid) ts = some i)
    (hgt : ts.get? i = some t) :
    updateTask now ts { id := tid } =
      { result := .ok { t with updatedAt := toISOString now }
        tasks := ts.set i { t with updatedAt := toISOString now }
        wrote := true } := by
  simp only [updateTask, hfi, hgt]
  rfl

theorem updateTask_empty_payload_frame_witness :
    updateTask 5 [sampleTask] { id := "a" } =
      { result := .ok { sampleTask with updatedAt := toISOString 5 }
        tasks := [{ sampleTask with updatedAt := toISOString 5 }]
        wrote := true } :=
  updateTask_empty_payload_frame 5 [sampleTask] "a" 0 sampleTask (by decide) (by decide)

/-- C10: for an existing task id (with the default provider), the
    `completeTask` tool is exactly the update operation applied with the
    single field `{status: "completed"}`: its outcome coincides with
    `updateTask({id, status: "completed"})`, so the status becomes
    `completed`, `updatedAt` is refreshed, and every other field is
    unchanged, both in the returned record and in the collection. -/
theorem completeTask_refines_updateTask (now : Nat) (ts : List Task) (tid : String)
    (i : Nat) (t : Task)
    (hfi : findIndex (fun x => x.id == tid) ts = some i)
    (hgt : ts.get? i = some t) :
    completeTaskHandler now ts { taskId := tid } =
      updateTask now ts { id := tid, status := some "completed" } ∧
    completeTaskHandler now ts { taskId := tid } =
      { result := .ok { t with status := "completed", updatedAt := toISOString now }
        tasks := ts.set i { t with status := "completed", updatedAt := toISOString now }
        wrote := true } := by
  constructor
  · rfl
  · show updateTask now ts { id := tid, status := some "completed" } = _
    simp only [updateTask, hfi, hgt]
    rfl

theorem completeTask_refines_updateTask_witness :
    completeTaskHandler 9 [openTask] { taskId := "a" } =
      updateTask 9 [openTask] { id := "a", status := some "completed" } ∧
    completeTaskHandler 9 [openTask] { taskId := "a" } =
      { result := .ok { openTask with status := "completed", updatedAt := toISOString 9 }
        tasks := [{ openTask with status := "completed", updatedAt := toISOString 9 }]
        wrote := true } :=
  completeTask_refines_updateTask 9 [openTask] "a" 0 openTask (by decide) (by decide)

/-- C2 counterexample: a backing file whose read fails for a reason other
    than absence (here a permission error), or whose contents do not parse,
    is NOT reported as an initialization failure — the provider silently
    starts with an empty collection and rewrites the file. -/
theorem initProvider_corrupt_replaced_silently :
    initProvider {} true (.parseError "unexpected token") true =
      { result := .ok { tasks := [], initDone := true }, savedFile := true } ∧
    initProvider {} true (.readError "EACCES permission denied") true =
      { result := .ok { tasks := [], initDone := true }, savedFile := true } :=
  ⟨rfl, rfl⟩

/-- C2 (amended): on first call, an absent backing file yields an empty
    collection written out immediately; but ANY other read failure
    (unreadable file, unparsable contents) is treated the same way —
    empty collection, file rewritten, no error.  Only a failure to create
    the storage directory or a failure of that initial write is reported
    as an initialization failure. -/
theorem initProvider_amended (st : LocalTaskProvider) (hst : st.initDone = false)
    (msg : String) (ts : List Task) (lo : LoadOutcome) (saveOk : Bool) :
    initProvider st true .enoent true =
      { result := .ok { tasks := [], initDone := true }, savedFile := true } ∧
    initProvider st true (.readError msg) true =
      { result := .ok { tasks := [], initDone := true }, savedFile := true } ∧
    initProvider st true (.parseError msg) true =
      { result := .ok { tasks := [], initDone := true }, savedFile := true } ∧
    initProvider st true (.loaded ts) saveOk =
      { result := .ok { tasks := ts, initDone := true }, savedFile := false } ∧
    (initProvider st false lo saveOk).result =
      .error "Failed to initialize local task provider: mkdir failed" ∧
    (initProvider st true (.readError msg) false).result =
      .error "Failed to initialize local task provider: Failed to save tasks" := by
  simp [initProvider, hst]

theorem initProvider_amended_witness :
    initProvider {} true .enoent true =
      { result := .ok { tasks := [], initDone := true }, savedFile := true } :=
  (initProvider_amended {} rfl "x" [] .enoent true).1

/-- C8: under a `this_week` due-date filter evaluated at `now`, a task whose
    due date parses to exactly seven days after the calendar day of `now`
    is included in the result, and every task with no due date is excluded
    regardless of its other fields. -/
theorem thisWeek_filter_boundary (now : Nat) (ts : List Task) (t : Task) (s : String)
    (ht : t ∈ ts) (hds : t.dueDate = some s)
    (hp : parseDateMs s = some (((dayOf now + 7) * msPerDay : Nat) : Int)) :
    t ∈ (getTasks now { dueDate := some "this_week" } ts).tasks ∧
    ∀ u ∈ ts, u.dueDate = none →
      u ∉ (getTasks now { dueDate := some "this_week" } ts).tasks := by
  have hres := getTasks_eq_filter now { dueDate := some "this_week" } ts
  have hw : ("this_week" : String).isEmpty = false := by decide
  have hq1 : (("this_week" : String) == "today") = false := by decide
  have hq2 : (("this_week" : String) == "tomorrow") = false := by decide
  have hsne : s.isEmpty = false := by
    cases hse : s.isEmpty
    · rfl
    · exfalso
      have hs0 : s = "" := (String.isEmpty_iff s).mp hse
      rw [hs0] at hp
      simp [parseDateMs] at hp
  have hweek : inThisWeek now t = true := by
    simp only [inThisWeek, hds, hsne, hp, Bool.false_eq_true, if_false,
      Bool.and_eq_true, decide_eq_true_eq, msPerDay, dayOf]
    constructor <;> push_cast <;> omega
  constructor
  · rw [hres]
    refine List.mem_filter.mpr ⟨ht, ?_⟩
    simp [matchesFilters, statusMatches, priorityMatches, dueDateMatches, truthy,
      hw, hq1, hq2, hweek]
  · intro u hu hdu hmem
    rw [hres] at hmem
    have hmf := (List.mem_filter.mp hmem).2
    simp [matchesFilters, statusMatches, priorityMatches, dueDateMatches, truthy,
      hw, hq1, hq2, inThisWeek, hdu] at hmf

theorem thisWeek_filter_boundary_witness :
    weekTask ∈ (getTasks 0 { dueDate := some "this_week" } [weekTask, noDueTask]).tasks ∧
    noDueTask ∉ (getTasks 0 { dueDate := some "this_week" } [weekTask, noDueTask]).tasks :=
  ⟨(thisWeek_filter_boundary 0 [weekTask, noDueTask] weekTask "1970-01-08"
      (by decide) rfl (by decide)).1,
   (thisWeek_filter_boundary 0 [weekTask, noDueTask] weekTask "1970-01-08"
      (by decide) rfl (by decide)).2 noDueTask (by decide) rfl⟩

end McpPa
